import Mathlib

/-!
Shallow embedding of `src/ts/components/CallingLobby.tsx` (Signal-Desktop).

The component is a presentational React view with one piece of local state
(the `isCallConnecting` boolean from `useState(false)`).  We embed it as:

* pure render functions computed from the props and the local state
  (`videoButtonType`, `audioButtonType`, `participantNames`,
  `summaryFragments`, `joinButtonChildren`, `renderJoinButton`, `render`);
* an event step function `stepLobby` over the local state, with callback
  props modelled as emitted `Intent` values;
* the keydown handler `handleKeyDown` returning the intents it emits and
  whether it called `preventDefault` / `stopPropagation`;
* the mount/unmount effect lifecycle (`setLocalPreview` registration and the
  keydown listener) as a trace of `EffectEvent`s, with effect re-runs on
  dependency change modelled by `rerenderEffects`.

The localized-string lookup `i18n` is modelled symbolically: each distinct
string key the component can render becomes a constructor of an inductive
type, with the interpolated arguments as constructor fields.
-/

/-- Camera device descriptor; the component only ever reads the length of the
`availableCameras` array, so the payload is opaque. -/
structure MediaDeviceInfo where
  deviceId : String
  deriving DecidableEq, Repr

/-- The fields of a peeked participant (`ConversationType` from the
conversations duck) that the lobby reads: identity and display-name fields.
`uuid` and `firstName` are optional in the source type. -/
structure ConversationType where
  uuid : Option String
  firstName : Option String
  title : String
  deriving DecidableEq, Repr

/-- The `me` prop: local-user identity.  `uuid` is required by `PropsType`. -/
structure MeType where
  uuid : String
  avatarPath : Option String := none
  deriving DecidableEq, Repr

/-- The `conversation` prop: only a title. -/
structure ConversationProp where
  title : String
  deriving DecidableEq, Repr

/-- The data props of the component.  `isGroupCall` and `isCallFull` are
modelled as `Option Bool` because the destructuring at lines 51-52 supplies
the default `false` when the incoming value is `undefined`.  Callback props
(`onJoinCall`, `onCallCanceled`, `setLocalAudio`, `setLocalVideo`,
`setLocalPreview`) are modelled as emitted intents, and `i18n` symbolically,
so they do not appear as fields. -/
structure PropsType where
  availableCameras : List MediaDeviceInfo
  conversation : ConversationProp
  hasLocalAudio : Bool
  hasLocalVideo : Bool
  isGroupCall : Option Bool := none
  isCallFull : Option Bool := none
  me : MeType
  peekedParticipants : List ConversationType
  showParticipantsList : Bool := false
  deriving DecidableEq, Repr

/-- The icon states of `CallingButton` used by this component. -/
inductive CallingButtonType where
  | VIDEO_ON
  | VIDEO_OFF
  | VIDEO_DISABLED
  | AUDIO_ON
  | AUDIO_OFF
  deriving DecidableEq, Repr

/-- Nested ternary at lines 110-114: local video wins, then zero cameras
means disabled, otherwise plain off. -/
def videoButtonType (hasLocalVideo : Bool) (availableCameras : List MediaDeviceInfo) :
    CallingButtonType :=
  if hasLocalVideo then CallingButtonType.VIDEO_ON
  else if availableCameras.length = 0 then CallingButtonType.VIDEO_DISABLED
  else CallingButtonType.VIDEO_OFF

/-- Lines 115-117: the audio toggle has exactly two states. -/
def audioButtonType (hasLocalAudio : Bool) : CallingButtonType :=
  if hasLocalAudio then CallingButtonType.AUDIO_ON else CallingButtonType.AUDIO_OFF

/-- A rendered display name: the localized you string or a literal string. -/
inductive DisplayName where
  | you
  | lit (s : String)
  deriving DecidableEq, Repr

/-- Body of the `map` at lines 122-126: the you string when the participant
uuid equals the local uuid, otherwise `firstName || title` with JS falsiness
(`undefined` or the empty string falls back to `title`). -/
def participantName (meUuid : String) (participant : ConversationType) : DisplayName :=
  if participant.uuid = some meUuid then DisplayName.you
  else
    DisplayName.lit
      (match participant.firstName with
        | some s => if s = "" then participant.title else s
        | none => participant.title)

/-- Lines 122-126: display names of all peeked participants, in order. -/
def participantNames (meUuid : String) (peeked : List ConversationType) : List DisplayName :=
  peeked.map (participantName meUuid)

/-- Lines 127-129: whether some peeked participant is the local user. -/
def hasYou (meUuid : String) (peeked : List ConversationType) : Bool :=
  peeked.any fun participant => decide (participant.uuid = some meUuid)

/-- The six summary strings of the group-call info line, with their
interpolated arguments.  The `many` count is rendered with `String(...)` in
the source; we keep it as the underlying number. -/
inductive Summary where
  | zero
  | self
  | single (name : DisplayName)
  | double (first second : DisplayName)
  | triple (first second third : DisplayName)
  | many (first second : DisplayName) (others : Nat)
  deriving DecidableEq, Repr

/-- Lines 188-216: the group-call info line.  Each JSX conditional contributes
its string exactly when its guard is truthy; the fragments are collected in
source order.  The guards guarantee every index is in range, so the
out-of-range default of `getD` is never taken. -/
def summaryFragments (meUuid : String) (peeked : List ConversationType) : List Summary :=
  (if (participantNames meUuid peeked).length = 0 then [Summary.zero] else []) ++
  (if (participantNames meUuid peeked).length = 1 ∧ hasYou meUuid peeked = true then
    [Summary.self] else []) ++
  (if (participantNames meUuid peeked).length = 1 ∧ hasYou meUuid peeked = false then
    [Summary.single ((participantNames meUuid peeked).getD 0 (DisplayName.lit ""))] else []) ++
  (if (participantNames meUuid peeked).length = 2 then
    [Summary.double ((participantNames meUuid peeked).getD 0 (DisplayName.lit ""))
      ((participantNames meUuid peeked).getD 1 (DisplayName.lit ""))] else []) ++
  (if (participantNames meUuid peeked).length = 3 then
    [Summary.triple ((participantNames meUuid peeked).getD 0 (DisplayName.lit ""))
      ((participantNames meUuid peeked).getD 1 (DisplayName.lit ""))
      ((participantNames meUuid peeked).getD 2 (DisplayName.lit ""))] else []) ++
  (if (participantNames meUuid peeked).length > 3 then
    [Summary.many ((participantNames meUuid peeked).getD 0 (DisplayName.lit ""))
      ((participantNames meUuid peeked).getD 1 (DisplayName.lit ""))
      ((participantNames meUuid peeked).length - 2)] else [])

/-- Content of the join button (lines 133-142). -/
inductive JoinButtonContent where
  | callIsFullLabel
  | connectingSpinner
  | joinLabel
  | startLabel
  deriving DecidableEq, Repr

/-- Line 131. -/
def canJoin (isCallFull isCallConnecting : Bool) : Bool :=
  !isCallFull && !isCallConnecting

/-- Lines 133-142: the if/else chain choosing the join button content; a JS
number is truthy exactly when it is nonzero. -/
def joinButtonChildren (isCallFull isCallConnecting : Bool) (peekedCount : Nat) :
    JoinButtonContent :=
  if isCallFull then JoinButtonContent.callIsFullLabel
  else if isCallConnecting then JoinButtonContent.connectingSpinner
  else if peekedCount ≠ 0 then JoinButtonContent.joinLabel
  else JoinButtonContent.startLabel

/-- Observable state of the rendered join button (lines 227-242):
`disabled={!canJoin}`, and `onClick` is a handler exactly when `canJoin`
(otherwise `undefined`). -/
structure JoinButton where
  disabled : Bool
  hasClickHandler : Bool
  children : JoinButtonContent
  deriving DecidableEq, Repr

/-- Render of the join button from the props and the local state. -/
def renderJoinButton (p : PropsType) (isCallConnecting : Bool) : JoinButton :=
  { disabled := !(canJoin (p.isCallFull.getD false) isCallConnecting)
    hasClickHandler := canJoin (p.isCallFull.getD false) isCallConnecting
    children :=
      joinButtonChildren (p.isCallFull.getD false) isCallConnecting
        p.peekedParticipants.length }

/-- The full observable render of the component from props and local state. -/
structure RenderOutput where
  headerParticipantCount : Nat
  videoButton : CallingButtonType
  audioButton : CallingButtonType
  showsLivePreview : Bool
  summary : Option (List Summary)
  joinButton : JoinButton
  deriving DecidableEq, Repr

/-- Whole-component render: header participant count (line 150), the two
toggle buttons, the live-preview-vs-placeholder choice (line 157), the
group-only summary line (lines 188-216), and the join button. -/
def render (p : PropsType) (isCallConnecting : Bool) : RenderOutput :=
  { headerParticipantCount := p.peekedParticipants.length
    videoButton := videoButtonType p.hasLocalVideo p.availableCameras
    audioButton := audioButtonType p.hasLocalAudio
    showsLivePreview := p.hasLocalVideo && decide (0 < p.availableCameras.length)
    summary :=
      if p.isGroupCall.getD false then some (summaryFragments p.me.uuid p.peekedParticipants)
      else none
    joinButton := renderJoinButton p isCallConnecting }

/-- Intents emitted to the external store through the callback props. -/
inductive Intent where
  | joinCall
  | callCanceled
  | setLocalVideo (enabled : Bool)
  | setLocalAudio (enabled : Bool)
  deriving DecidableEq, Repr

/-- Result of delivering one keydown event to `handleKeyDown` (lines 82-98):
the `setLocalVideo` / `setLocalAudio` payloads emitted (via `toggleVideo` and
`toggleAudio`, which invert the current flags, lines 66-72), and whether
`preventDefault` and `stopPropagation` were called. -/
structure KeyEventResult where
  videoIntents : List Bool
  audioIntents : List Bool
  defaultPrevented : Bool
  propagationStopped : Bool
  deriving DecidableEq, Repr

/-- Lines 82-98: `eventHandled` is set by the two shortcut branches, and the
event is suppressed exactly when it is set. -/
def handleKeyDown (hasLocalVideo hasLocalAudio : Bool) (shiftKey : Bool) (key : String) :
    KeyEventResult :=
  let step :=
    if shiftKey = true ∧ (key = "V" ∨ key = "v") then
      ([!hasLocalVideo], ([] : List Bool), true)
    else if shiftKey = true ∧ (key = "M" ∨ key = "m") then
      (([] : List Bool), [!hasLocalAudio], true)
    else (([] : List Bool), ([] : List Bool), false)
  { videoIntents := step.1
    audioIntents := step.2.1
    defaultPrevented := step.2.2
    propagationStopped := step.2.2 }

/-- The user events the mounted component reacts to. -/
inductive LobbyEvent where
  | joinClick
  | cancelClick
  | keyDown (shiftKey : Bool) (key : String)
  deriving DecidableEq, Repr

/-- Initial value of the `useState` at line 107. -/
def initIsCallConnecting : Bool := false

/-- One event step: the new local state and the emitted intents.  A join
click runs the handler of lines 232-235 when `canJoin` holds and is inert
otherwise (the `onClick` prop is `undefined`, line 236); cancel always fires
(line 221); a keydown goes through `handleKeyDown`. -/
def stepLobby (p : PropsType) (isCallConnecting : Bool) : LobbyEvent → Bool × List Intent
  | LobbyEvent.joinClick =>
      if canJoin (p.isCallFull.getD false) isCallConnecting then (true, [Intent.joinCall])
      else (isCallConnecting, [])
  | LobbyEvent.cancelClick => (isCallConnecting, [Intent.callCanceled])
  | LobbyEvent.keyDown shiftKey key =>
      (isCallConnecting,
        ((handleKeyDown p.hasLocalVideo p.hasLocalAudio shiftKey key).videoIntents.map
            Intent.setLocalVideo) ++
          ((handleKeyDown p.hasLocalVideo p.hasLocalAudio shiftKey key).audioIntents.map
            Intent.setLocalAudio))

/-- Deliver `n` successive join clicks, counting the `joinCall` intents. -/
def joinClickRun (p : PropsType) : Bool → Nat → Bool × Nat
  | connecting, 0 => (connecting, 0)
  | connecting, n + 1 =>
      let out := stepLobby p connecting LobbyEvent.joinClick
      let rest := joinClickRun p out.1 n
      (rest.1, out.2.count Intent.joinCall + rest.2)

/-- Observable calls made by the two effects (lines 74-80 and 82-105):
`setLocalPreview` with a defined element or with `undefined`, and the keydown
listener add/remove. -/
inductive EffectEvent where
  | setLocalPreview (element : Option Unit)
  | addKeydownListener
  | removeKeydownListener
  deriving DecidableEq, Repr

/-- Effects run on mount, in source order: preview registration with the
defined ref (line 75), then the listener add (line 100). -/
def mountEffects : List EffectEvent :=
  [EffectEvent.setLocalPreview (some ()), EffectEvent.addKeydownListener]

/-- Effect cleanups run on unmount, in source order: preview deregistration
with `undefined` (line 78), then the listener removal (line 103). -/
def unmountEffects : List EffectEvent :=
  [EffectEvent.setLocalPreview none, EffectEvent.removeKeydownListener]

/-- Trace of a mount followed directly by an unmount. -/
def mountUnmountTrace : List EffectEvent := mountEffects ++ unmountEffects

/-- Effects run on a re-render: an effect whose dependency array changed
(`[setLocalPreview]` for the first effect, `[toggleVideo, toggleAudio]` for
the second) first runs its cleanup and then runs again; an effect whose
dependencies are unchanged does nothing. -/
def rerenderEffects (previewDepChanged keydownDepChanged : Bool) : List EffectEvent :=
  (if previewDepChanged then
    [EffectEvent.setLocalPreview none, EffectEvent.setLocalPreview (some ())] else []) ++
  (if keydownDepChanged then
    [EffectEvent.removeKeydownListener, EffectEvent.addKeydownListener] else [])

/-- Concrete props used by the witnesses. -/
def sampleProps : PropsType :=
  { availableCameras := []
    conversation := { title := "Group" }
    hasLocalAudio := false
    hasLocalVideo := false
    me := { uuid := "me-uuid" }
    peekedParticipants := [] }

/-- Concrete props of a full call, used by the witnesses. -/
def fullCallProps : PropsType :=
  { sampleProps with isCallFull := some true }

/-- C6: for all combinations of the hasLocalVideo flag and the camera count,
the video toggle icon is video-on iff hasLocalVideo, else video-disabled iff
the camera count is zero, else video-off; the audio toggle is on iff
hasLocalAudio and off iff not. -/
theorem callingLobby_toggle_button_types (hasLocalVideo hasLocalAudio : Bool)
    (cams : List MediaDeviceInfo) :
    (videoButtonType hasLocalVideo cams = CallingButtonType.VIDEO_ON ↔ hasLocalVideo = true) ∧
    (hasLocalVideo = false →
      (videoButtonType hasLocalVideo cams = CallingButtonType.VIDEO_DISABLED ↔
        cams.length = 0)) ∧
    (hasLocalVideo = false → cams.length ≠ 0 →
      videoButtonType hasLocalVideo cams = CallingButtonType.VIDEO_OFF) ∧
    (audioButtonType hasLocalAudio = CallingButtonType.AUDIO_ON ↔ hasLocalAudio = true) ∧
    (audioButtonType hasLocalAudio = CallingButtonType.AUDIO_OFF ↔ hasLocalAudio = false) := by
  cases hasLocalVideo <;> cases hasLocalAudio <;>
    by_cases h : cams.length = 0 <;>
      simp [videoButtonType, audioButtonType, h]

/-- C6 witness: with video off and one camera present the icon is video-off. -/
theorem callingLobby_toggle_button_types_witness :
    videoButtonType false [{ deviceId := "cam" }] = CallingButtonType.VIDEO_OFF :=
  (callingLobby_toggle_button_types false true [{ deviceId := "cam" }]).2.2.1 rfl (by decide)

/-- C5: the join button content is chosen by strict priority: the call-is-full
literal when full, else the connecting spinner when a join attempt is in
flight, else the join label when the peeked list is non-empty, else the start
label. -/
theorem callingLobby_join_button_content (isCallFull isCallConnecting : Bool)
    (peeked : List ConversationType) :
    (isCallFull = true →
      joinButtonChildren isCallFull isCallConnecting peeked.length =
        JoinButtonContent.callIsFullLabel) ∧
    (isCallFull = false → isCallConnecting = true →
      joinButtonChildren isCallFull isCallConnecting peeked.length =
        JoinButtonContent.connectingSpinner) ∧
    (isCallFull = false → isCallConnecting = false → peeked ≠ [] →
      joinButtonChildren isCallFull isCallConnecting peeked.length =
        JoinButtonContent.joinLabel) ∧
    (isCallFull = false → isCallConnecting = false → peeked = [] →
      joinButtonChildren isCallFull isCallConnecting peeked.length =
        JoinButtonContent.startLabel) := by
  cases isCallFull <;> cases isCallConnecting <;>
    by_cases h : peeked = [] <;>
      simp [joinButtonChildren, h, List.length_eq_zero]

/-- C5 witness: a full call shows the call-is-full label. -/
theorem callingLobby_join_button_content_witness :
    joinButtonChildren true false (List.length ([] : List ConversationType)) =
      JoinButtonContent.callIsFullLabel :=
  (callingLobby_join_button_content true false []).1 rfl

/-- C4: the join button is enabled (and carries a click handler) iff the call
is not full and no join attempt is in flight; when the call is full a join
click changes no state and emits no intent. -/
theorem callingLobby_join_eligibility (p : PropsType) (s : Bool) :
    ((renderJoinButton p s).disabled = false ↔
      (p.isCallFull.getD false = false ∧ s = false)) ∧
    ((renderJoinButton p s).hasClickHandler = true ↔
      (p.isCallFull.getD false = false ∧ s = false)) ∧
    (p.isCallFull.getD false = true →
      (stepLobby p s LobbyEvent.joinClick).1 = s ∧
        (stepLobby p s LobbyEvent.joinClick).2 = []) := by
  cases hf : p.isCallFull.getD false <;> cases s <;>
    simp [renderJoinButton, stepLobby, canJoin, hf]

/-- C4 witness: on a full call the join click emits no intent. -/
theorem callingLobby_join_eligibility_witness :
    (stepLobby fullCallProps false LobbyEvent.joinClick).2 = [] :=
  ((callingLobby_join_eligibility fullCallProps false).2.2 rfl).2

/-- C9: omitting isCallFull renders and behaves exactly as isCallFull = false,
omitting isGroupCall renders exactly as isGroupCall = false, and with
isGroupCall omitted no summary line is rendered at all. -/
theorem callingLobby_optional_prop_defaults (p : PropsType) (s : Bool) :
    render { p with isCallFull := none } s = render { p with isCallFull := some false } s ∧
    (∀ e, stepLobby { p with isCallFull := none } s e =
      stepLobby { p with isCallFull := some false } s e) ∧
    render { p with isGroupCall := none } s = render { p with isGroupCall := some false } s ∧
    (p.isGroupCall = none → (render p s).summary = none) := by
  refine ⟨rfl, fun e => ?_, rfl, fun h => ?_⟩
  · cases e <;> rfl
  · simp [render, h]

/-- C9 witness: the sample props omit isGroupCall, so no summary is shown. -/
theorem callingLobby_optional_prop_defaults_witness :
    (render sampleProps false).summary = none :=
  (callingLobby_optional_prop_defaults sampleProps false).2.2.2 rfl

/-- C10: the name used for a peeked participant is the localized you string
exactly when its uuid is the local uuid; otherwise it is firstName when that
is present and non-empty, and title when firstName is absent or empty; and
every participant of the list contributes its name to the summary list. -/
theorem callingLobby_participant_name_rule (meUuid : String) (participant : ConversationType) :
    (participant.uuid = some meUuid → participantName meUuid participant = DisplayName.you) ∧
    (participant.uuid ≠ some meUuid → ∀ s, participant.firstName = some s → s ≠ "" →
      participantName meUuid participant = DisplayName.lit s) ∧
    (participant.uuid ≠ some meUuid →
      (participant.firstName = none ∨ participant.firstName = some "") →
      participantName meUuid participant = DisplayName.lit participant.title) ∧
    (∀ peeked : List ConversationType, participant ∈ peeked →
      participantName meUuid participant ∈ participantNames meUuid peeked) := by
  refine ⟨fun h => ?_, fun h s hs hne => ?_, fun h hfn => ?_, fun peeked hmem => ?_⟩
  · simp [participantName, h]
  · simp [participantName, h, hs, hne]
  · rcases hfn with hfn | hfn <;> simp [participantName, h, hfn]
  · exact List.mem_map_of_mem _ hmem

/-- C10 witness: a non-self participant with non-empty firstName is shown by
that first name. -/
theorem callingLobby_participant_name_rule_witness :
    participantName "me-uuid"
      { uuid := some "bob-uuid", firstName := some "Bob", title := "Bob Builder" } =
      DisplayName.lit "Bob" :=
  (callingLobby_participant_name_rule "me-uuid"
      { uuid := some "bob-uuid", firstName := some "Bob", title := "Bob Builder" }).2.1
    (by decide) "Bob" rfl (by decide)

/-- Helper: once the connecting flag is set, further join clicks leave the
flag set and emit no join intent, whatever the props say. -/
theorem joinClickRun_of_connecting (p : PropsType) (n : Nat) :
    joinClickRun p true n = (true, 0) := by
  induction n with
  | zero => rfl
  | succ n ih => simp [joinClickRun, stepLobby, canJoin, ih]

/-- C2: a join click in an eligible state (call not full, no attempt in
flight) sets the connecting flag and emits the join intent, and any number of
further synchronous clicks of the run add no second join intent. -/
theorem callingLobby_join_click_once (p : PropsType) (n : Nat)
    (h : p.isCallFull.getD false = false) :
    (stepLobby p false LobbyEvent.joinClick).1 = true ∧
    (stepLobby p false LobbyEvent.joinClick).2 = [Intent.joinCall] ∧
    joinClickRun p false (n + 1) = (true, 1) := by
  have hstep : stepLobby p false LobbyEvent.joinClick = (true, [Intent.joinCall]) := by
    simp [stepLobby, canJoin, h]
  refine ⟨by rw [hstep], by rw [hstep], ?_⟩
  simp [joinClickRun, hstep, joinClickRun_of_connecting]

/-- C2 witness: three rapid clicks from the eligible sample state yield
exactly one join intent and leave the flag set. -/
theorem callingLobby_join_click_once_witness :
    joinClickRun sampleProps false 3 = (true, 1) :=
  (callingLobby_join_click_once sampleProps 2 rfl).2.2

/-- C3: the connecting flag starts false, is never reset once true, flips to
true only through a join click (which also emits the join intent), and while
it is true the join button renders disabled with no click handler. -/
theorem callingLobby_connecting_invariant (p : PropsType) (s : Bool) (e : LobbyEvent) :
    initIsCallConnecting = false ∧
    (s = true → (stepLobby p s e).1 = true) ∧
    (s = false → (stepLobby p s e).1 = true →
      e = LobbyEvent.joinClick ∧ Intent.joinCall ∈ (stepLobby p s e).2) ∧
    (s = true →
      (renderJoinButton p s).disabled = true ∧ (renderJoinButton p s).hasClickHandler = false) := by
  refine ⟨rfl, fun hs => ?_, fun hs h1 => ?_, fun hs => ?_⟩
  · subst hs
    cases e <;> simp [stepLobby, canJoin]
  · subst hs
    cases e with
    | joinClick =>
        by_cases hc : canJoin (p.isCallFull.getD false) false = true
        · simp [stepLobby, hc]
        · simp only [stepLobby, if_neg hc] at h1
          exact absurd h1 (by simp)
    | cancelClick => simp [stepLobby] at h1
    | keyDown shiftKey key => simp [stepLobby] at h1
  · subst hs
    simp [renderJoinButton, canJoin]

/-- C3 witness: with the flag set, the join button of the sample props is
disabled and has no click handler. -/
theorem callingLobby_connecting_invariant_witness :
    (renderJoinButton sampleProps true).disabled = true ∧
      (renderJoinButton sampleProps true).hasClickHandler = false :=
  (callingLobby_connecting_invariant sampleProps true LobbyEvent.cancelClick).2.2.2 rfl

/-- C7: Shift with V or v emits exactly one video-toggle intent (inverting
hasLocalVideo), Shift with M or m exactly one audio-toggle intent; the event
is suppressed (preventDefault and stopPropagation) exactly when one of the
two combinations matched, and every other key event emits nothing and is left
untouched. -/
theorem callingLobby_keyboard_shortcuts (v a shiftKey : Bool) (key : String) :
    (shiftKey = true → key = "V" ∨ key = "v" →
      handleKeyDown v a shiftKey key =
        { videoIntents := [!v], audioIntents := [], defaultPrevented := true,
          propagationStopped := true }) ∧
    (shiftKey = true → key = "M" ∨ key = "m" →
      handleKeyDown v a shiftKey key =
        { videoIntents := [], audioIntents := [!a], defaultPrevented := true,
          propagationStopped := true }) ∧
    ((handleKeyDown v a shiftKey key).defaultPrevented = true ↔
      shiftKey = true ∧ (key = "V" ∨ key = "v" ∨ key = "M" ∨ key = "m")) ∧
    ((handleKeyDown v a shiftKey key).propagationStopped =
      (handleKeyDown v a shiftKey key).defaultPrevented) ∧
    (¬(shiftKey = true ∧ (key = "V" ∨ key = "v" ∨ key = "M" ∨ key = "m")) →
      handleKeyDown v a shiftKey key =
        { videoIntents := [], audioIntents := [], defaultPrevented := false,
          propagationStopped := false }) := by
  refine ⟨fun hs hk => ?_, fun hs hk => ?_, ?_, rfl, fun hnot => ?_⟩
  · subst hs
    rcases hk with h | h <;> subst h <;> simp [handleKeyDown]
  · subst hs
    rcases hk with h | h <;> subst h <;> simp [handleKeyDown]
  · cases shiftKey with
    | false => simp [handleKeyDown]
    | true =>
        by_cases hV : key = "V"
        · subst hV; simp [handleKeyDown]
        · by_cases hv : key = "v"
          · subst hv; simp [handleKeyDown]
          · by_cases hM : key = "M"
            · subst hM; simp [handleKeyDown]
            · by_cases hm : key = "m"
              · subst hm; simp [handleKeyDown]
              · simp [handleKeyDown, hV, hv, hM, hm]
  · cases shiftKey with
    | false => simp [handleKeyDown]
    | true =>
        simp only [true_and, not_or] at hnot
        · simp [handleKeyDown, hnot.1, hnot.2.1, hnot.2.2.1, hnot.2.2.2]

/-- C7 witness: Shift+V with video off emits exactly one video-toggle intent
turning video on, and suppresses the event. -/
theorem callingLobby_keyboard_shortcuts_witness :
    handleKeyDown false false true "V" =
      { videoIntents := [true], audioIntents := [], defaultPrevented := true,
        propagationStopped := true } := by
  have h := (callingLobby_keyboard_shortcuts false false true "V").1 rfl (Or.inl rfl)
  exact h.trans (by decide)

/-- C8: a mount followed by an unmount performs exactly one preview
registration with a defined target, exactly one later deregistration with an
undefined target, and exactly one keydown-listener add/remove pair; a
re-render whose setLocalPreview identity changed also deregisters, and a
re-render with unchanged dependencies performs no effect call at all. -/
theorem callingLobby_effect_lifecycle :
    mountUnmountTrace.count (EffectEvent.setLocalPreview (some ())) = 1 ∧
    mountUnmountTrace.count (EffectEvent.setLocalPreview none) = 1 ∧
    mountUnmountTrace.indexOf (EffectEvent.setLocalPreview (some ())) <
      mountUnmountTrace.indexOf (EffectEvent.setLocalPreview none) ∧
    mountUnmountTrace.count EffectEvent.addKeydownListener = 1 ∧
    mountUnmountTrace.count EffectEvent.removeKeydownListener = 1 ∧
    (∀ keydownDepChanged : Bool,
      EffectEvent.setLocalPreview none ∈ rerenderEffects true keydownDepChanged) ∧
    rerenderEffects false false = [] := by
  refine ⟨rfl, rfl, by decide, rfl, rfl, fun kc => ?_, rfl⟩
  cases kc <;> decide

/-- Five distinct peeked participants used by the summary witness. -/
def fivePeeked : List ConversationType :=
  [{ uuid := some "bob-uuid", firstName := some "Bob", title := "Bob Builder" },
   { uuid := some "carol-uuid", firstName := some "Carol", title := "Carol C" },
   { uuid := some "dan-uuid", firstName := some "Dan", title := "Dan D" },
   { uuid := some "eve-uuid", firstName := some "Eve", title := "Eve E" },
   { uuid := some "frank-uuid", firstName := some "Frank", title := "Frank F" }]

/-- Helper: the six guards of the group summary line partition the possible
list shapes, so exactly one fragment is rendered for any peeked list. -/
theorem summaryFragments_length_one (meUuid : String) (peeked : List ConversationType) :
    (summaryFragments meUuid peeked).length = 1 := by
  rcases peeked with _ | ⟨p, _ | ⟨q, _ | ⟨r, _ | ⟨t, rest⟩⟩⟩⟩
  · simp [summaryFragments, participantNames, hasYou]
  · by_cases h : p.uuid = some meUuid <;>
      simp [summaryFragments, participantNames, hasYou, h]
  · simp [summaryFragments, participantNames, hasYou]
  · simp [summaryFragments, participantNames, hasYou]
  · have hn : (participantNames meUuid (p :: q :: r :: t :: rest)).length = rest.length + 4 := by
      simp [participantNames]
    simp only [summaryFragments]
    rw [if_neg (by rw [hn]; omega),
      if_neg (by rintro ⟨h1, _⟩; rw [hn] at h1; omega),
      if_neg (by rintro ⟨h1, _⟩; rw [hn] at h1; omega),
      if_neg (by rw [hn]; omega),
      if_neg (by rw [hn]; omega),
      if_pos (by rw [hn]; omega)]
    simp

/-- C1: the group-call summary is selected purely by cardinality and
self-membership, with mutually exclusive cases: zero, self (sole participant
is the local user), single (name interpolated), double, triple, and many with
the first two names and a count of length minus two; exactly one case renders
for every list. -/
theorem callingLobby_summary_cases (meUuid : String) (peeked : List ConversationType) :
    (peeked.length = 0 → summaryFragments meUuid peeked = [Summary.zero]) ∧
    (∀ p, peeked = [p] → p.uuid = some meUuid →
      summaryFragments meUuid peeked = [Summary.self]) ∧
    (∀ p, peeked = [p] → p.uuid ≠ some meUuid →
      summaryFragments meUuid peeked = [Summary.single (participantName meUuid p)]) ∧
    (∀ p q, peeked = [p, q] →
      summaryFragments meUuid peeked =
        [Summary.double (participantName meUuid p) (participantName meUuid q)]) ∧
    (∀ p q r, peeked = [p, q, r] →
      summaryFragments meUuid peeked =
        [Summary.triple (participantName meUuid p) (participantName meUuid q)
          (participantName meUuid r)]) ∧
    (∀ p q rest, peeked = p :: q :: rest → 1 < rest.length →
      summaryFragments meUuid peeked =
        [Summary.many (participantName meUuid p) (participantName meUuid q)
          (peeked.length - 2)]) ∧
    (summaryFragments meUuid peeked).length = 1 := by
  refine ⟨fun h0 => ?_, fun p hpe h => ?_, fun p hpe h => ?_, fun p q hpe => ?_,
    fun p q r hpe => ?_, fun p q rest hpe hlen => ?_, summaryFragments_length_one meUuid peeked⟩
  · rw [List.length_eq_zero] at h0
    subst h0
    simp [summaryFragments, participantNames, hasYou]
  · subst hpe
    simp [summaryFragments, participantNames, hasYou, h]
  · subst hpe
    simp [summaryFragments, participantNames, hasYou, h]
  · subst hpe
    simp [summaryFragments, participantNames, hasYou]
  · subst hpe
    simp [summaryFragments, participantNames, hasYou]
  · subst hpe
    rcases rest with _ | ⟨r1, _ | ⟨r2, rest2⟩⟩
    · simp at hlen
    · simp at hlen
    · have hn :
          (participantNames meUuid (p :: q :: r1 :: r2 :: rest2)).length = rest2.length + 4 := by
        simp [participantNames]
      simp only [summaryFragments]
      rw [if_neg (by rw [hn]; omega),
        if_neg (by rintro ⟨h1, _⟩; rw [hn] at h1; omega),
        if_neg (by rintro ⟨h1, _⟩; rw [hn] at h1; omega),
        if_neg (by rw [hn]; omega),
        if_neg (by rw [hn]; omega),
        if_pos (by rw [hn]; omega)]
      simp [participantNames]

/-- C1 witness: five non-self participants render the many case with the
first two names and a count of three others. -/
theorem callingLobby_summary_cases_witness :
    summaryFragments "me-uuid" fivePeeked =
      [Summary.many (DisplayName.lit "Bob") (DisplayName.lit "Carol") 3] := by
  have h := (callingLobby_summary_cases "me-uuid" fivePeeked).2.2.2.2.2.1
    { uuid := some "bob-uuid", firstName := some "Bob", title := "Bob Builder" }
    { uuid := some "carol-uuid", firstName := some "Carol", title := "Carol C" }
    [{ uuid := some "dan-uuid", firstName := some "Dan", title := "Dan D" },
     { uuid := some "eve-uuid", firstName := some "Eve", title := "Eve E" },
     { uuid := some "frank-uuid", firstName := some "Frank", title := "Frank F" }]
    rfl (by decide)
  exact h.trans (by decide)
